import Mathlib

/-!
Verification development for the document-processing service.

This file shallowly embeds the two core modules of the repository,
`app/conversion_service.py` (class `ConversionService`) and
`app/llm_service.py` (class `LLMService`), as executable Lean
definitions, and proves the frozen claims about them.

Modelling conventions:
* Python exceptions are embedded as `Except` values; a `try/except`
  block becomes a `match` on the `Except`.
* The outside world (the filesystem, the LibreOffice subprocess, the
  LLM provider, the wall clock) is passed in as an explicit
  environment record, so every operation is a pure total function of
  its inputs and its environment.
* Python `str.strip` and the whitespace skipped by `json.loads` are
  both modelled with the four ASCII whitespace characters
  (space, tab, carriage return, newline); these are exactly the
  whitespace characters of the JSON grammar and the only ones the
  claims exercise.
* JSON values are modelled by the inductive `JsonValue`; numbers are
  modelled as integers (the examples in the claims use only integers
  and strings).
-/

namespace DocSvc

/-- JSON values as produced by the Python `json` module: `None`, `bool`,
numbers (modelled as integers), `str`, `list` and `dict` (an ordered
association list, as `json.loads` preserves insertion order). -/
inductive JsonValue where
  | null
  | bool (b : Bool)
  | num (n : Int)
  | str (s : String)
  | arr (xs : List JsonValue)
  | obj (fields : List (String × JsonValue))

mutual

/-- Structural equality of JSON values, modelling Python `==` on the
values returned by `json.loads` (restricted to structurally equal
shapes; the claims never compare a boolean with a number). -/
def jsonBEq : JsonValue → JsonValue → Bool
  | .null, .null => true
  | .bool a, .bool b => a == b
  | .num a, .num b => a == b
  | .str a, .str b => a == b
  | .arr a, .arr b => jsonListBEq a b
  | .obj a, .obj b => jsonPairsBEq a b
  | _, _ => false

/-- Elementwise equality of JSON arrays. -/
def jsonListBEq : List JsonValue → List JsonValue → Bool
  | [], [] => true
  | a :: as, b :: bs => jsonBEq a b && jsonListBEq as bs
  | _, _ => false

/-- Elementwise equality of JSON object field lists. -/
def jsonPairsBEq : List (String × JsonValue) → List (String × JsonValue) → Bool
  | [], [] => true
  | (k, v) :: as, (k2, v2) :: bs => k == k2 && jsonBEq v v2 && jsonPairsBEq as bs
  | _, _ => false

end

/-- The whitespace predicate shared by the model of `str.strip` and of
`json.loads` (space, tab, carriage return, newline). -/
def isWs (c : Char) : Bool := c.isWhitespace

/-- Model of Python `str.strip` restricted to ASCII whitespace, on
character lists: drop whitespace from the front, then from the back. -/
def stripWs (l : List Char) : List Char :=
  List.rdropWhile isWs (l.dropWhile isWs)

/-- Model of Python `str.strip` on strings. -/
def pyStrip (s : String) : String := String.mk (stripWs s.data)

/-- List version of Python `str.startswith`. -/
def startsWithL : List Char → List Char → Bool
  | [], _ => true
  | _ :: _, [] => false
  | p :: ps, c :: cs => p == c && startsWithL ps cs

/-- First cleanup step of `LLMService.extract_data`: if the stripped
response starts with a backtick fence tagged `json` (seven characters),
drop those seven characters. -/
def dropJsonTag (l : List Char) : List Char :=
  if startsWithL ("```json".data) l then l.drop 7 else l

/-- Second cleanup step: if the text starts with a bare three-backtick
fence, drop those three characters. -/
def dropFenceHead (l : List Char) : List Char :=
  if startsWithL ("```".data) l then l.drop 3 else l

/-- Third cleanup step: if the text ends with a three-backtick fence,
drop the last three characters (`cleaned[:-3]`, expressed as
reverse-drop-reverse). -/
def dropFenceTail (l : List Char) : List Char :=
  if startsWithL ("```".data.reverse) l.reverse then (l.reverse.drop 3).reverse else l

/-- Model of the response-sanitization step of `LLMService.extract_data`
(`llm_service.py` lines 89-97): strip, remove a leading three-backtick
marker optionally tagged `json`, remove a trailing three-backtick
marker, strip again. -/
def cleanList (l : List Char) : List Char :=
  stripWs (dropFenceTail (dropFenceHead (dropJsonTag (stripWs l))))

/-- The response sanitization on strings. -/
def cleanResponse (s : String) : String := String.mk (cleanList s.data)

/-! ## A model of `json.loads`

`LLMService.extract_data` parses the sanitized response with
`json.loads`.  The parser below implements the JSON grammar restricted
to integer numerals and to string escapes without `\u` sequences; this
is the fragment the claims exercise, and every universally quantified
theorem that involves the parser only assumes that some input parses
successfully.  `json.loads` accepts a document consisting of one value
surrounded by optional whitespace; this is modelled by stripping the
surrounding whitespace and requiring the parse to consume the entire
remaining input.  Recursion is by fuel, one unit per nested value. -/

/-- Skip JSON whitespace. -/
def skipWs (l : List Char) : List Char := l.dropWhile isWs

/-- Decode one string escape character (`\u` sequences unsupported). -/
def escChar : Char → Option Char
  | 'n' => some '\n'
  | 't' => some '\t'
  | 'r' => some '\r'
  | 'b' => some (Char.ofNat 8)
  | 'f' => some (Char.ofNat 12)
  | '"' => some '"'
  | '\\' => some '\\'
  | '/' => some '/'
  | _ => none

/-- Parse the body of a JSON string literal (after the opening quote),
returning the decoded string and the input after the closing quote. -/
def parseStrBody (acc : List Char) : List Char → Option (String × List Char)
  | [] => none
  | '"' :: r => some (String.mk acc.reverse, r)
  | '\\' :: c :: r =>
    match escChar c with
    | some d => parseStrBody (d :: acc) r
    | none => none
  | c :: r => parseStrBody (c :: acc) r

/-- The numeric value of a digit sequence. -/
def digitsToNat (ds : List Char) : Nat :=
  ds.foldl (fun acc c => acc * 10 + (c.toNat - 48)) 0

/-- Parse an integer numeral (optional minus sign, one or more digits),
returning the value and the rest of the input. -/
def parseNum (l : List Char) : Option (Int × List Char) :=
  match l with
  | '-' :: r =>
    let ds := r.takeWhile Char.isDigit
    if ds.isEmpty then none
    else some (-(Int.ofNat (digitsToNat ds)), r.drop ds.length)
  | _ =>
    let ds := l.takeWhile Char.isDigit
    if ds.isEmpty then none
    else some (Int.ofNat (digitsToNat ds), l.drop ds.length)

mutual

/-- Parse one JSON value after skipping leading whitespace. -/
def parseV (fuel : Nat) (l : List Char) : Option (JsonValue × List Char) :=
  match fuel with
  | 0 => none
  | f + 1 =>
    match skipWs l with
    | [] => none
    | c :: r =>
      if c == '\x7b' then parseObjRest f r true []
      else if c == '[' then parseArrRest f r true []
      else if c == '"' then
        match parseStrBody [] r with
        | some (s, r1) => some (.str s, r1)
        | none => none
      else if c == 't' then
        if r.take 3 == ['r', 'u', 'e'] then some (.bool true, r.drop 3) else none
      else if c == 'f' then
        if r.take 4 == ['a', 'l', 's', 'e'] then some (.bool false, r.drop 4) else none
      else if c == 'n' then
        if r.take 3 == ['u', 'l', 'l'] then some (.null, r.drop 3) else none
      else if c == '-' || c.isDigit then
        match parseNum (c :: r) with
        | some (n, r1) => some (.num n, r1)
        | none => none
      else none

/-- Parse the members of an object after the opening brace (or after a
comma, with `first := false`, in which case a closing brace is not
allowed yet, matching the JSON grammar without trailing commas). -/
def parseObjRest (fuel : Nat) (l : List Char) (first : Bool)
    (acc : List (String × JsonValue)) : Option (JsonValue × List Char) :=
  match fuel with
  | 0 => none
  | f + 1 =>
    match skipWs l with
    | '\x7d' :: r => if first then some (.obj acc.reverse, r) else none
    | '"' :: r =>
      match parseStrBody [] r with
      | some (k, r1) =>
        match skipWs r1 with
        | ':' :: r2 =>
          match parseV f r2 with
          | some (v, r3) =>
            match skipWs r3 with
            | ',' :: r4 => parseObjRest f r4 false ((k, v) :: acc)
            | '\x7d' :: r4 => some (.obj ((k, v) :: acc).reverse, r4)
            | _ => none
          | none => none
        | _ => none
      | none => none
    | _ => none

/-- Parse the elements of an array after the opening bracket (or after a
comma, with `first := false`). -/
def parseArrRest (fuel : Nat) (l : List Char) (first : Bool)
    (acc : List JsonValue) : Option (JsonValue × List Char) :=
  match fuel with
  | 0 => none
  | f + 1 =>
    match skipWs l with
    | ']' :: r => if first then some (.arr acc.reverse, r) else none
    | l1 =>
      match parseV f l1 with
      | some (v, r1) =>
        match skipWs r1 with
        | ',' :: r2 => parseArrRest f r2 false (v :: acc)
        | ']' :: r2 => some (.arr (v :: acc).reverse, r2)
        | _ => none
      | none => none

end

/-- Model of `json.loads`: strip surrounding whitespace, parse one value
and require that it consumes the whole input. -/
def jsonLoads (s : String) : Option JsonValue :=
  let l := stripWs s.data
  match parseV (l.length + 1) l with
  | some (v, []) => some v
  | _ => none

/-- A response that is valid JSON wrapped in triple-backtick fences with
the given language tag (an empty tag gives a bare fence), as an LLM
would produce it. -/
def wrapFence (tag : String) (j : String) : String :=
  "```" ++ tag ++ "\n" ++ j ++ "\n```"

/-! ## Model of `str.format` and the prompt-assembly step

`LLMService.extract_data` (lines 68-74) renders the user prompt with
`user_prompt_template.format(document=document_text)` and falls back to
`user_prompt_template.replace("\x7bdocument\x7d", document_text)` only when
the substitution raises `KeyError`.  The model below implements the
`str.format` scanner restricted to simple replacement fields (no
conversion or format-spec suffixes, which the repository's templates do
not use): doubled braces are literals, a lone closing brace or an
unterminated field raises `ValueError`, an empty or numeric field name
raises `IndexError` (no positional arguments are supplied), any field
name other than `document` raises `KeyError`. -/

/-- The class of exception raised by the `str.format` scanner. -/
inductive FmtErr where
  | keyError (key : String)
  | indexError (msg : String)
  | valueError (msg : String)

/-- The `str.format` scanner over the template, with `document` bound to
`doc`.  Fuel is one unit per consumed character; the wrapper supplies
enough fuel that the exhaustion branch is unreachable. -/
def formatScan (doc : List Char) : Nat → List Char → Except FmtErr (List Char)
  | 0, _ => .error (.valueError "format scanner out of fuel")
  | _ + 1, [] => .ok []
  | f + 1, '\x7b' :: '\x7b' :: r => (fun t => '\x7b' :: t) <$> formatScan doc f r
  | f + 1, '\x7d' :: '\x7d' :: r => (fun t => '\x7d' :: t) <$> formatScan doc f r
  | _ + 1, '\x7d' :: _ =>
    .error (.valueError "Single \x27\x7d\x27 encountered in format string")
  | f + 1, '\x7b' :: r =>
    match r.dropWhile (fun c => !(c == '\x7d')) with
    | [] =>
      if r.isEmpty then
        .error (.valueError "Single \x27\x7b\x27 encountered in format string")
      else .error (.valueError "expected \x27\x7d\x27 before end of string")
    | _ :: r2 =>
      let field := r.takeWhile (fun c => !(c == '\x7d'))
      if field == "document".data then (fun t => doc ++ t) <$> formatScan doc f r2
      else if field.all Char.isDigit then
        .error (.indexError "Replacement index out of range")
      else .error (.keyError (String.mk field))
  | f + 1, c :: r => (fun t => c :: t) <$> formatScan doc f r

/-- Model of `user_prompt_template.format(document=document_text)`. -/
def formatDocument (tmpl doc : String) : Except FmtErr String :=
  (formatScan doc.data (tmpl.data.length + 1) tmpl.data).map String.mk

/-- Model of Python `str.replace` (all occurrences, left to right,
non-overlapping); only ever called with the nonempty pattern
`"\x7bdocument\x7d"`.  Fuel is one unit per consumed character. -/
def replaceScan (pat rep : List Char) : Nat → List Char → List Char
  | 0, l => l
  | _ + 1, [] => []
  | f + 1, c :: r =>
    if startsWithL pat (c :: r) && !pat.isEmpty then
      rep ++ replaceScan pat rep f ((c :: r).drop pat.length)
    else c :: replaceScan pat rep f r

/-- Model of `s.replace(pat, rep)`. -/
def pyReplace (s pat rep : String) : String :=
  String.mk (replaceScan pat.data rep.data (s.data.length + 1) s.data)

/-- The prompt-assembly step of `extract_data` (lines 68-74): render the
template; on `KeyError` fall back to literal replacement of the
`document` placeholder; any other formatting fault (a `ValueError` or
`IndexError`) propagates to the top-level handler as its message. -/
def assemble_user_prompt (tmpl doc : String) : Except String String :=
  match formatDocument tmpl doc with
  | .ok s => .ok s
  | .error (.keyError _) => .ok (pyReplace tmpl "\x7bdocument\x7d" doc)
  | .error (.indexError m) => .error m
  | .error (.valueError m) => .error m

/-! ## Model of `LLMService._validate_against_schema`

The Python code intends to raise `ValidationError` for schema
violations, to be caught together with `json.JSONDecodeError` by the
inner handler of `extract_data`.  But the `ValidationError` in scope is
pydantic's (imported at `llm_service.py` line 23), and pydantic's
`ValidationError` -- in both major versions of the library -- cannot be
constructed from a single string: evaluating `ValidationError(f"...")`
itself raises `TypeError` before anything is raised as a
`ValidationError`.  A `TypeError` is not caught by
`except (json.JSONDecodeError, ValidationError)`, so every schema
violation, like every other `TypeError` arising inside validation
(from applying `in` or indexing to an unsuitable value), escapes to
the top-level handler of `extract_data`.  The model keeps the
failed-construction sites apart from the other `TypeError` sites so
the message the code meant to attach stays visible in the
embedding. -/

/-- Exceptions out of schema validation.  `validationCtor intended`
marks a `raise ValidationError(f"...")` site: constructing the
exception fails with `TypeError`, so what propagates is that
`TypeError`, never a `ValidationError`; `intended` records the message
the code meant to attach, which the outcome never carries.
`typeError` covers the remaining `TypeError` sites.  Both escape the
inner handler of `extract_data`. -/
inductive VErr where
  | validationCtor (intended : String)
  | typeError (msg : String)

/-- Python `dict` lookup on a JSON object (later bindings win, as in
`dict` construction). -/
def objLookup (fs : List (String × JsonValue)) (k : String) : Option JsonValue :=
  fs.foldl (fun acc p => if p.1 == k then some p.2 else acc) none

/-- Substring occurrence test (Python `needle in haystack` on strings). -/
def containsSub (p : List Char) : List Char → Bool
  | [] => p.isEmpty
  | c :: r => startsWithL p (c :: r) || containsSub p r

/-- Python `member in container` for JSON values: key lookup on dicts
(non-string hashable members are simply absent, unhashable ones raise
`TypeError`), element equality on lists, substring test on strings,
`TypeError` on anything else. -/
def jsonContains : JsonValue → JsonValue → Except String Bool
  | .obj fs, .str k => .ok (objLookup fs k).isSome
  | .obj _, .num _ => .ok false
  | .obj _, .bool _ => .ok false
  | .obj _, .null => .ok false
  | .obj _, _ => .error "unhashable type"
  | .arr xs, m => .ok (xs.any (fun v => jsonBEq m v))
  | .str s, .str k => .ok (containsSub k.data s.data)
  | .str _, _ => .error "in requires string as left operand"
  | _, _ => .error "argument is not iterable"

/-- Python subscription `container[key]` with a string key. -/
def dataGet : JsonValue → String → Except String JsonValue
  | .obj fs, k =>
    match objLookup fs k with
    | some v => .ok v
    | none => .error "KeyError"
  | .arr _, _ => .error "list indices must be integers"
  | .str _, _ => .error "string indices must be integers"
  | _, _ => .error "value is not subscriptable"

/-- Python `str(x)` as used in the f-string error messages (container
display abbreviated; containers are unhashable and never reach the
message). -/
def jsonDisplay : JsonValue → String
  | .str s => s
  | .num n => toString n
  | .bool true => "True"
  | .bool false => "False"
  | .null => "None"
  | .arr _ => "[...]"
  | .obj _ => "\x7b...\x7d"

/-- Python iteration over a JSON value (`for field in ...`): lists yield
elements, strings yield one-character strings, dicts yield their keys,
anything else raises `TypeError`. -/
def iterToList : JsonValue → Except String (List JsonValue)
  | .arr xs => .ok xs
  | .str s => .ok (s.data.map (fun c => .str (String.mk [c])))
  | .obj fs => .ok (fs.map (fun p => JsonValue.str p.1))
  | _ => .error "object is not iterable"

/-- The `required` loop body: the first field not contained in the data
reaches the `raise ValidationError(...)` site (`llm_service.py` lines
171-174), whose construction raises `TypeError`; the intended message
is recorded but never observable. -/
def checkRequiredFields (data : JsonValue) : List JsonValue → Except VErr Unit
  | [] => .ok ()
  | f :: rest =>
    match jsonContains data f with
    | .error m => .error (.typeError m)
    | .ok true => checkRequiredFields data rest
    | .ok false =>
      .error (.validationCtor
        ("Required field \x27" ++ jsonDisplay f ++ "\x27 missing from response"))

/-- The `required` half of `_validate_against_schema`. -/
def checkRequiredPart (data schema : JsonValue) : Except VErr Unit :=
  match jsonContains schema (.str "required") with
  | .error m => .error (.typeError m)
  | .ok false => .ok ()
  | .ok true =>
    match dataGet schema "required" with
    | .error m => .error (.typeError m)
    | .ok req =>
      match iterToList req with
      | .error m => .error (.typeError m)
      | .ok fields => checkRequiredFields data fields

/-- `isinstance(x, str)`. -/
def isStringInst : JsonValue → Bool
  | .str _ => true
  | _ => false

/-- `isinstance(x, (int, float))`.  In Python `bool` is a subclass of
`int`, so booleans are instances of the number family. -/
def isNumberInst : JsonValue → Bool
  | .num _ => true
  | .bool _ => true
  | _ => false

/-- `isinstance(x, list)`. -/
def isArrayInst : JsonValue → Bool
  | .arr _ => true
  | _ => false

/-- The declared-type check of `_validate_against_schema` (lines
179-185): only the declared types `string`, `number` and `array` are
ever checked; any other (or missing, or non-string) declared type
passes.  A failed check reaches a `raise ValidationError(...)` site,
whose construction raises `TypeError`. -/
def checkFieldType (field : String) (expected : Option JsonValue) (v : JsonValue) :
    Except VErr Unit :=
  match expected with
  | some (.str t) =>
    if t == "string" then
      if isStringInst v then .ok ()
      else .error (.validationCtor ("Field \x27" ++ field ++ "\x27 should be string"))
    else if t == "number" then
      if isNumberInst v then .ok ()
      else .error (.validationCtor ("Field \x27" ++ field ++ "\x27 should be number"))
    else if t == "array" then
      if isArrayInst v then .ok ()
      else .error (.validationCtor ("Field \x27" ++ field ++ "\x27 should be array"))
    else .ok ()
  | _ => .ok ()

/-- `field_schema.get("type")`: only a dict supports `.get`. -/
def fieldGetType : JsonValue → Except String (Option JsonValue)
  | .obj fs => .ok (objLookup fs "type")
  | _ => .error "object has no attribute get"

/-- The `properties` loop body (lines 176-185). -/
def checkPropPairs (data : JsonValue) : List (String × JsonValue) → Except VErr Unit
  | [] => .ok ()
  | (field, fschema) :: rest =>
    match jsonContains data (.str field) with
    | .error m => .error (.typeError m)
    | .ok false => checkPropPairs data rest
    | .ok true =>
      match dataGet data field with
      | .error m => .error (.typeError m)
      | .ok v =>
        match fieldGetType fschema with
        | .error m => .error (.typeError m)
        | .ok t =>
          match checkFieldType field t v with
          | .error e => .error e
          | .ok _ => checkPropPairs data rest

/-- The `properties` half of `_validate_against_schema`. -/
def checkPropertiesPart (data schema : JsonValue) : Except VErr Unit :=
  match jsonContains schema (.str "properties") with
  | .error m => .error (.typeError m)
  | .ok false => .ok ()
  | .ok true =>
    match dataGet schema "properties" with
    | .error m => .error (.typeError m)
    | .ok props =>
      match props with
      | .obj pairs => checkPropPairs data pairs
      | _ => .error (.typeError "object has no attribute items")

/-- Model of `LLMService._validate_against_schema` (lines 168-185): the
`required` names must all be present, then each present property with a
declared type in the set checked by the code must pass its instance
check. -/
def validate_against_schema (data schema : JsonValue) : Except VErr Unit :=
  match checkRequiredPart data schema with
  | .error e => .error e
  | .ok _ => checkPropertiesPart data schema

/-! ## Model of `LLMService.extract_data` -/

mutual

/-- Model of `json.dumps` as used for the schema instruction appended to
the system prompt (serialization rendered without indentation; the
resulting text is opaque to every claim, as the provider behaviour is
universally quantified). -/
def jsonDumps : JsonValue → String
  | .null => "null"
  | .bool true => "true"
  | .bool false => "false"
  | .num n => toString n
  | .str s => "\"" ++ s ++ "\""
  | .arr xs => "[" ++ jsonDumpsList xs ++ "]"
  | .obj fs => "\x7b" ++ jsonDumpsPairs fs ++ "\x7d"

/-- Comma-joined serialization of array elements. -/
def jsonDumpsList : List JsonValue → String
  | [] => ""
  | [x] => jsonDumps x
  | x :: xs => jsonDumps x ++ ", " ++ jsonDumpsList xs

/-- Comma-joined serialization of object members. -/
def jsonDumpsPairs : List (String × JsonValue) → String
  | [] => ""
  | [(k, v)] => "\"" ++ k ++ "\": " ++ jsonDumps v
  | (k, v) :: fs => "\"" ++ k ++ "\": " ++ jsonDumps v ++ ", " ++ jsonDumpsPairs fs

end

/-- The schema instruction appended to the system prompt (line 77). -/
def schema_instruction (schema : JsonValue) : String :=
  "\n\nYou must respond with valid JSON that conforms to this schema:\n" ++ jsonDumps schema

/-- The environment of one `extract_data` call: the provider backend
(`_call_openai` / `_call_anthropic`, both of capability "accept
system+user text, return generated text or raise"), the elapsed
wall-clock seconds reported by the clock, the message text of the
`json.JSONDecodeError` raised on a parse failure, and the message text
of the `TypeError` raised when the code constructs pydantic's
`ValidationError` from a single string (its exact wording is
library-version-dependent, hence environmental). -/
structure LlmEnv where
  llm : String → String → Except String String
  elapsed : Nat
  decodeErrMsg : String
  validationCtorMsg : String

/-- The outcome dictionary returned by `extract_data`, with one field
per key the Python code ever places in it. -/
structure ExtractOutcome where
  success : Bool
  extracted_data : Option JsonValue
  error : Option String
  raw_response : Option String
  processing_time_seconds : Nat

/-- Model of `LLMService.extract_data` (lines 46-130): assemble the user
prompt (with the `KeyError` fallback), append the schema instruction to
the system prompt, call the provider, sanitize and parse the response,
validate it against the schema.  A parse failure yields the
`Invalid JSON response` failure outcome carrying the raw (unsanitized)
response; the inner handler would treat a `ValidationError` the same
way, but no `ValidationError` is ever successfully constructed (see
`VErr`), so a schema violation instead surfaces as the `TypeError` of
the failed construction and, like every other fault, reaches the
top-level handler, which yields a failure outcome carrying the
exception message and no raw response. -/
def extract_data (env : LlmEnv) (document_text system_prompt user_prompt_template : String)
    (json_schema : JsonValue) : ExtractOutcome :=
  match assemble_user_prompt user_prompt_template document_text with
  | .error m =>
    { success := false, extracted_data := none, error := some m,
      raw_response := none, processing_time_seconds := env.elapsed }
  | .ok user_prompt =>
    match env.llm (system_prompt ++ schema_instruction json_schema) user_prompt with
    | .error m =>
      { success := false, extracted_data := none, error := some m,
        raw_response := none, processing_time_seconds := env.elapsed }
    | .ok response =>
      match jsonLoads (cleanResponse response) with
      | none =>
        { success := false, extracted_data := none,
          error := some ("Invalid JSON response: " ++ env.decodeErrMsg),
          raw_response := some response, processing_time_seconds := env.elapsed }
      | some data =>
        match validate_against_schema data json_schema with
        | .error (.validationCtor _) =>
          { success := false, extracted_data := none,
            error := some env.validationCtorMsg,
            raw_response := none, processing_time_seconds := env.elapsed }
        | .error (.typeError m) =>
          { success := false, extracted_data := none, error := some m,
            raw_response := none, processing_time_seconds := env.elapsed }
        | .ok _ =>
          { success := true, extracted_data := some data, error := none,
            raw_response := some response, processing_time_seconds := env.elapsed }

/-! ## Model of `ConversionService.convert_document`

The filesystem, the LibreOffice subprocess, the glob over the scratch
directory and the final move/stat are the environment of one call.
`subprocess.run(..., timeout=60)` either returns a completed process
(return code and captured stderr) or raises (`TimeoutExpired` or an
`OSError`), modelled as the `Except` error carrying the exception
message; `shutil.move`/`mkdir` faults are folded into `moveResult`. -/

/-- A completed `subprocess.run` result. -/
structure SubRes where
  returncode : Int
  stderr : String

/-- The environment of one `convert_document` call. -/
structure ConvEnv where
  inputExists : Bool
  subprocess : Except String SubRes
  globFiles : List String
  moveResult : Except String Unit
  statSize : Nat

/-- Observable side effects of a `convert_document` call. -/
inductive ConvEvent where
  | ranConverter

/-- The result dictionary of `convert_document`, one field per key the
Python code ever places in it. -/
structure ConvOutcome where
  success : Bool
  output_path : Option String
  file_size : Option Nat
  format : String
  error : Option String

/-- The failure dictionary of `convert_document` (lines 117-123). -/
def convFail (fmt msg : String) : ConvOutcome :=
  { success := false, output_path := none, file_size := none,
    format := fmt, error := some msg }

/-- The closed filter/extension map of `convert_document` (lines
66-80); an unknown format raises
`ValueError("Unsupported output format: ...")`. -/
def formatMap (fmt : String) : Option (String × String) :=
  if fmt == "pdf" then some ("writer_pdf_Export", ".pdf")
  else if fmt == "txt" then some ("Text (encoded)", ".txt")
  else if fmt == "csv" then some ("Text - txt - csv (StarCalc)", ".csv")
  else if fmt == "html" then some ("HTML (StarWriter)", ".html")
  else none

/-- Python `pathlib.Path.stem`: final path component without its last
suffix. -/
def pathStem (p : String) : String :=
  let base := (p.splitOn "/").getLastD p
  match base.data with
  | [] => ""
  | c0 :: rest =>
    if rest.contains '.' then
      String.mk (c0 :: ((rest.reverse.dropWhile (fun c => !(c == '.'))).drop 1).reverse)
    else base

/-- Model of `ConversionService.convert_document` (lines 46-123),
returning the outcome dictionary together with the trace of external
effects.  The existence check precedes the format map; the format map
precedes the subprocess invocation; a nonzero exit, an empty glob or a
move fault each produce the corresponding failure dictionary via the
top-level handler. -/
def convert_document (env : ConvEnv) (storage_path input_path output_format : String) :
    ConvOutcome × List ConvEvent :=
  if !env.inputExists then
    (convFail output_format ("Input file not found: " ++ input_path), [])
  else
    match formatMap output_format with
    | none => (convFail output_format ("Unsupported output format: " ++ output_format), [])
    | some (_, ext) =>
      match env.subprocess with
      | .error m => (convFail output_format m, [.ranConverter])
      | .ok r =>
        if r.returncode != 0 then
          (convFail output_format ("LibreOffice conversion failed: " ++ r.stderr), [.ranConverter])
        else
          match env.globFiles with
          | [] => (convFail output_format "No converted file found", [.ranConverter])
          | _ :: _ =>
            match env.moveResult with
            | .error m => (convFail output_format m, [.ranConverter])
            | .ok _ =>
              ({ success := true,
                 output_path := some (storage_path ++ "/conversions/" ++
                   pathStem input_path ++ "_" ++ output_format ++ ext),
                 file_size := some env.statSize,
                 format := output_format, error := none },
               [.ranConverter])

/-! ## Model of `ConversionService._safe_read_text`

A file is modelled by its byte content (naturals below 256; larger
values cannot arise from a file and are reduced modulo 256 by the
single-byte codecs).  Each loop iteration opens the file with
`errors='ignore'`, so the decoder drops undecodable bytes instead of
raising; the `Except` shape of `readWithEncoding` records the
`UnicodeDecodeError/UnicodeError` surface that the `try/except` of the
loop guards. -/

/-- The encodings attempted by `_safe_read_text`, in order (line 217). -/
inductive PyEnc where
  | utf8
  | utf8sig
  | latin1
  | cp1252
  | iso8859_1

/-- Continuation-byte test for UTF-8. -/
def isCont (b : Nat) : Bool := 0x80 ≤ b && b ≤ 0xBF

/-- UTF-8 decoding with invalid sequences dropped (`errors='ignore'`):
one- to four-byte sequences with the standard second-byte restrictions
(no overlong forms, no surrogates, nothing above U+10FFFF); an invalid
lead or continuation byte is skipped and decoding resumes.  Fuel is one
unit per consumed lead byte; the wrapper supplies enough. -/
def utf8DecodeGo : Nat → List Nat → List Char
  | 0, _ => []
  | _ + 1, [] => []
  | f + 1, b :: r =>
    if b ≤ 0x7F then Char.ofNat b :: utf8DecodeGo f r
    else if 0xC2 ≤ b && b ≤ 0xDF then
      match r with
      | b2 :: r2 =>
        if isCont b2 then
          Char.ofNat ((b - 0xC0) * 64 + (b2 - 0x80)) :: utf8DecodeGo f r2
        else utf8DecodeGo f r
      | [] => []
    else if 0xE0 ≤ b && b ≤ 0xEF then
      match r with
      | b2 :: b3 :: r3 =>
        if (if b == 0xE0 then 0xA0 ≤ b2 && b2 ≤ 0xBF
            else if b == 0xED then 0x80 ≤ b2 && b2 ≤ 0x9F
            else isCont b2) && isCont b3 then
          Char.ofNat ((b - 0xE0) * 4096 + (b2 - 0x80) * 64 + (b3 - 0x80)) ::
            utf8DecodeGo f r3
        else utf8DecodeGo f r
      | _ => utf8DecodeGo f r
    else if 0xF0 ≤ b && b ≤ 0xF4 then
      match r with
      | b2 :: b3 :: b4 :: r4 =>
        if (if b == 0xF0 then 0x90 ≤ b2 && b2 ≤ 0xBF
            else if b == 0xF4 then 0x80 ≤ b2 && b2 ≤ 0x8F
            else isCont b2) && isCont b3 && isCont b4 then
          Char.ofNat ((b - 0xF0) * 262144 + (b2 - 0x80) * 4096 +
            (b3 - 0x80) * 64 + (b4 - 0x80)) :: utf8DecodeGo f r4
        else utf8DecodeGo f r
      | _ => utf8DecodeGo f r
    else utf8DecodeGo f r

/-- UTF-8 decoding with invalid sequences dropped. -/
def utf8DecodeIgnore (bs : List Nat) : List Char := utf8DecodeGo (bs.length + 1) bs

/-- UTF-8 with byte-order mark: strip the BOM when present, then decode
as UTF-8. -/
def utf8sigDecodeIgnore (bs : List Nat) : List Char :=
  match bs with
  | 0xEF :: 0xBB :: 0xBF :: rest => utf8DecodeIgnore rest
  | _ => utf8DecodeIgnore bs

/-- Latin-1 (and ISO-8859-1): every byte maps to the character of the
same code point; this codec is total. -/
def latin1Decode (bs : List Nat) : List Char :=
  bs.map (fun b => Char.ofNat (b % 256))

/-- The Windows-1252 mapping for the 0x80-0x9F block; the five
undefined bytes decode to nothing under `errors='ignore'`. -/
def cp1252Map (b : Nat) : Option Nat :=
  if b == 0x80 then some 0x20AC else if b == 0x82 then some 0x201A
  else if b == 0x83 then some 0x0192 else if b == 0x84 then some 0x201E
  else if b == 0x85 then some 0x2026 else if b == 0x86 then some 0x2020
  else if b == 0x87 then some 0x2021 else if b == 0x88 then some 0x02C6
  else if b == 0x89 then some 0x2030 else if b == 0x8A then some 0x0160
  else if b == 0x8B then some 0x2039 else if b == 0x8C then some 0x0152
  else if b == 0x8E then some 0x017D else if b == 0x91 then some 0x2018
  else if b == 0x92 then some 0x2019 else if b == 0x93 then some 0x201C
  else if b == 0x94 then some 0x201D else if b == 0x95 then some 0x2022
  else if b == 0x96 then some 0x2013 else if b == 0x97 then some 0x2014
  else if b == 0x98 then some 0x02DC else if b == 0x99 then some 0x2122
  else if b == 0x9A then some 0x0161 else if b == 0x9B then some 0x203A
  else if b == 0x9C then some 0x0153 else if b == 0x9E then some 0x017E
  else if b == 0x9F then some 0x0178
  else if b == 0x81 || b == 0x8D || b == 0x8F || b == 0x90 || b == 0x9D then none
  else some b

/-- Windows-1252 decoding with undefined bytes dropped. -/
def cp1252DecodeIgnore (bs : List Nat) : List Char :=
  bs.filterMap (fun b => (cp1252Map (b % 256)).map Char.ofNat)

/-- Decoding a byte stream under one of the attempted encodings with
`errors='ignore'`: a total function in every case. -/
def pyDecodeIgnore : PyEnc → List Nat → String
  | .utf8, bs => String.mk (utf8DecodeIgnore bs)
  | .utf8sig, bs => String.mk (utf8sigDecodeIgnore bs)
  | .latin1, bs => String.mk (latin1Decode bs)
  | .cp1252, bs => String.mk (cp1252DecodeIgnore bs)
  | .iso8859_1, bs => String.mk (latin1Decode bs)

/-- One iteration body of the encoding loop:
`open(file_path, 'r', encoding=enc, errors='ignore').read()`.  Because
`errors='ignore'` suppresses every decode fault, the read always
succeeds; the `Except` shape records the exception surface the loop's
`try/except (UnicodeDecodeError, UnicodeError)` guards. -/
def readWithEncoding (enc : PyEnc) (bytes : List Nat) : Except String String :=
  .ok (pyDecodeIgnore enc bytes)

/-- The ordered encoding list of `_safe_read_text`. -/
def encodingsList : List PyEnc := [.utf8, .utf8sig, .latin1, .cp1252, .iso8859_1]

/-- The encoding loop (lines 219-224) with its binary fallback (lines
226-233): return the first successful decode; if every attempt throws
at the decode layer, read the raw bytes and decode them as UTF-8 with
invalid sequences dropped. -/
def readLoop (bytes : List Nat) : List PyEnc → String
  | [] => pyDecodeIgnore .utf8 bytes
  | enc :: rest =>
    match readWithEncoding enc bytes with
    | .ok s => s
    | .error _ => readLoop bytes rest

/-- Model of `ConversionService._safe_read_text` (lines 215-233). -/
def safe_read_text (bytes : List Nat) : String := readLoop bytes encodingsList

/-! ## Model of `ConversionService.extract_text` -/

/-- The environment of one `extract_text` call: the MIME sniffing result
(`magic.from_file` may raise), the availability and output of each
format-specific extraction library, the conversion environment for the
LibreOffice fallback, the bytes of the converted output file, and the
bytes of the input file itself. -/
structure TextEnv where
  mime : Except String String
  pdfAvailable : Bool
  pdfPages : Except String (List String)
  docxAvailable : Bool
  docxParas : Except String (List String)
  pandasAvailable : Bool
  excelText : Except String String
  conv : ConvEnv
  storage : String
  convertedBytes : List Nat
  fileBytes : List Nat

/-- Model of `ConversionService._extract_pdf_text` (lines 155-179): a
missing library raises `RuntimeError`; otherwise the page texts are
concatenated, each followed by a newline; a page-level fault
propagates. -/
def extract_pdf_text (env : TextEnv) : Except String String :=
  if !env.pdfAvailable then .error "PyPDF2/pypdf2 not available for PDF text extraction"
  else
    match env.pdfPages with
    | .error m => .error m
    | .ok pages => .ok (String.join (pages.map (fun p => p ++ "\n")))

/-- Model of `ConversionService._extract_docx_text` (lines 181-191). -/
def extract_docx_text (env : TextEnv) : Except String String :=
  if !env.docxAvailable then .error "python-docx not available for DOCX text extraction"
  else
    match env.docxParas with
    | .error m => .error m
    | .ok paras => .ok (String.join (paras.map (fun p => p ++ "\n")))

/-- Model of `ConversionService._extract_excel_text` (lines 193-200). -/
def extract_excel_text (env : TextEnv) : Except String String :=
  if !env.pandasAvailable then .error "pandas/openpyxl not available for Excel text extraction"
  else env.excelText

/-- Model of `ConversionService._extract_powerpoint_text` (lines
202-213): convert via LibreOffice and read the result; on failure the
raised `RuntimeError` is caught by this method's own handler, which
returns a descriptive error string as the "text". -/
def extract_powerpoint_text (env : TextEnv) (file_path : String) : String :=
  match convert_document env.conv env.storage file_path "txt" with
  | (o, _) =>
    if o.success then safe_read_text env.convertedBytes
    else "Error extracting PowerPoint text: PowerPoint conversion failed: " ++ o.error.getD ""

/-- Model of `ConversionService.extract_text` (lines 125-153): sniff the
MIME type and dispatch; any exception out of the dispatch (including a
failed generic LibreOffice fallback, which raises `RuntimeError`) is
caught by the top-level handler, which returns the empty string. -/
def extract_text (env : TextEnv) (file_path : String) : String :=
  match env.mime with
  | .error _ => ""
  | .ok ft =>
    if ft == "application/pdf" then
      match extract_pdf_text env with
      | .ok t => t
      | .error _ => ""
    else if ft == "application/vnd.openxmlformats-officedocument.wordprocessingml.document"
        || ft == "application/msword" then
      match extract_docx_text env with
      | .ok t => t
      | .error _ => ""
    else if ft == "application/vnd.openxmlformats-officedocument.spreadsheetml.sheet"
        || ft == "application/vnd.ms-excel" then
      match extract_excel_text env with
      | .ok t => t
      | .error _ => ""
    else if ft == "application/vnd.openxmlformats-officedocument.presentationml.presentation"
        || ft == "application/vnd.ms-powerpoint" then
      extract_powerpoint_text env file_path
    else if startsWithL "text/".data ft.data then
      safe_read_text env.fileBytes
    else
      match convert_document env.conv env.storage file_path "txt" with
      | (o, _) => if o.success then safe_read_text env.convertedBytes else ""

/-! ## Shared concrete instances and outcome well-formedness -/

/-- A provider environment whose model always answers `r`, with a fixed
clock reading, the standard parse-error message, and a fixed text for
the `TypeError` of a failed `ValidationError` construction. -/
def exampleEnv (r : String) : LlmEnv :=
  { llm := fun _ _ => .ok r, elapsed := 7,
    decodeErrMsg := "Expecting value: line 1 column 1 (char 0)",
    validationCtorMsg := "ValidationError cannot be constructed from a single string" }

/-- The schema requiring a `vendor` field. -/
def schemaVendor : JsonValue := .obj [("required", .arr [.str "vendor"])]

/-- The schema requiring a `total` field declared as a number. -/
def schemaTotalNumber : JsonValue :=
  .obj [("required", .arr [.str "total"]),
        ("properties", .obj [("total", .obj [("type", .str "number")])])]

/-- Outcome well-formedness for `convert_document`: success carries the
output location and size and no error; failure carries an error
message. -/
def convWellFormed (o : ConvOutcome) : Prop :=
  (o.success = true → o.output_path.isSome ∧ o.file_size.isSome ∧ o.error = none) ∧
  (o.success = false → o.error.isSome)

/-- Outcome well-formedness for `extract_data`: success carries the
structured value and the raw response and no error; failure carries an
error message. -/
def extractWellFormed (o : ExtractOutcome) : Prop :=
  (o.success = true → o.extracted_data.isSome ∧ o.raw_response.isSome ∧ o.error = none) ∧
  (o.success = false → o.error.isSome)

/-- A conversion environment whose converter exits nonzero. -/
def convEnvFail : ConvEnv :=
  { inputExists := true, subprocess := .ok { returncode := 1, stderr := "boom" },
    globFiles := [], moveResult := .ok (), statSize := 0 }

/-- A conversion environment for a missing input file. -/
def convEnvMissing : ConvEnv :=
  { inputExists := false, subprocess := .ok { returncode := 0, stderr := "" },
    globFiles := ["out.docx"], moveResult := .ok (), statSize := 10 }

/-- A baseline extraction environment: plain-text input, every library
available, converter failing with a diagnostic. -/
def baseTextEnv : TextEnv :=
  { mime := .ok "text/plain", pdfAvailable := true, pdfPages := .ok [],
    docxAvailable := true, docxParas := .ok [], pandasAvailable := true,
    excelText := .ok "", conv := convEnvFail, storage := "/storage",
    convertedBytes := [], fileBytes := [] }

/-! ## Lemmas about whitespace stripping and fence cleaning -/

theorem data_append (a b : String) : (a ++ b).data = a.data ++ b.data := rfl

theorem data_mk (l : List Char) : (String.mk l).data = l := rfl

theorem rdropWhile_ws_append {l w : List Char} (hw : ∀ c ∈ w, isWs c = true) :
    List.rdropWhile isWs (l ++ w) = List.rdropWhile isWs l := by
  unfold List.rdropWhile
  rw [List.reverse_append,
    List.dropWhile_append_of_pos (fun a ha => hw a (List.mem_reverse.mp ha))]

/-- Stripping is unaffected by an all-whitespace prefix. -/
theorem stripWs_ws_append {w l : List Char} (hw : ∀ c ∈ w, isWs c = true) :
    stripWs (w ++ l) = stripWs l := by
  unfold stripWs
  rw [List.dropWhile_append_of_pos hw]

/-- Stripping is unaffected by an all-whitespace suffix. -/
theorem stripWs_append_ws {l w : List Char} (hw : ∀ c ∈ w, isWs c = true) :
    stripWs (l ++ w) = stripWs l := by
  unfold stripWs
  rw [List.dropWhile_append]
  by_cases h : (l.dropWhile isWs).isEmpty
  · simp only [h, if_true]
    have h1 : w.dropWhile isWs = [] := List.dropWhile_eq_nil_iff.mpr hw
    have h2 : l.dropWhile isWs = [] := by
      cases hc : l.dropWhile isWs with
      | nil => rfl
      | cons a t => rw [hc] at h; simp [List.isEmpty] at h
    rw [h1, h2]
  · simp only [h, if_false]
    exact rdropWhile_ws_append hw

/-- Stripping removes any all-whitespace padding. -/
theorem stripWs_pad {w1 l w2 : List Char} (h1 : ∀ c ∈ w1, isWs c = true)
    (h2 : ∀ c ∈ w2, isWs c = true) :
    stripWs (w1 ++ l ++ w2) = stripWs l := by
  rw [List.append_assoc, stripWs_ws_append h1, stripWs_append_ws h2]

/-- A list whose first and last characters are not whitespace is
unchanged by stripping. -/
theorem stripWs_eq_self {a b : Char} {m : List Char}
    (ha : isWs a = false) (hb : isWs b = false) :
    stripWs (a :: (m ++ [b])) = a :: (m ++ [b]) := by
  unfold stripWs
  rw [List.dropWhile_cons_of_neg (by simp [ha])]
  rw [show a :: (m ++ [b]) = (a :: m) ++ [b] by simp]
  rw [List.rdropWhile_concat_neg _ _ _ (by simp [hb])]

/-- Stripping is idempotent. -/
theorem stripWs_idem (l : List Char) : stripWs (stripWs l) = stripWs l := by
  unfold stripWs
  have hpre : List.rdropWhile isWs (l.dropWhile isWs) <+: l.dropWhile isWs :=
    List.rdropWhile_prefix isWs _
  have hnolead : (List.rdropWhile isWs (l.dropWhile isWs)).dropWhile isWs =
      List.rdropWhile isWs (l.dropWhile isWs) := by
    cases hcase : List.rdropWhile isWs (l.dropWhile isWs) with
    | nil => rfl
    | cons a t =>
      obtain ⟨s, hs⟩ := hpre
      rw [hcase] at hs
      have ha : isWs a = false := by
        cases h : isWs a with
        | false => rfl
        | true =>
          exfalso
          have hid : List.dropWhile isWs ((a :: t) ++ s) = (a :: t) ++ s := by
            rw [hs]
            exact List.dropWhile_idempotent isWs l
          rw [List.cons_append, List.dropWhile_cons_of_pos (by simp [h])] at hid
          have hsuf : (t ++ s).dropWhile isWs <:+ (t ++ s) := List.dropWhile_suffix isWs
          have hle := hsuf.length_le
          rw [hid] at hle
          simp at hle
      exact List.dropWhile_cons_of_neg (by simp [ha])
  rw [hnolead]
  exact List.rdropWhile_idempotent isWs _

/-- The backtick character (written by code point to keep fence markers
out of the source text outside string literals). -/
def bq : Char := Char.ofNat 96

/-- The newline character. -/
def nlc : Char := '\n'

theorem isWs_bq : isWs bq = false := rfl

theorem isWs_nlc : isWs nlc = true := rfl

/-- Stripping the wrapped response changes nothing: it starts and ends
with a backtick. -/
theorem stripWs_fenced (pre : List Char) (j : List Char) :
    stripWs (bq :: pre ++ (j ++ (nlc :: bq :: bq :: bq :: []))) =
      bq :: pre ++ (j ++ (nlc :: bq :: bq :: bq :: [])) := by
  have hshape : bq :: pre ++ (j ++ (nlc :: bq :: bq :: bq :: [])) =
      bq :: ((pre ++ (j ++ (nlc :: bq :: bq :: []))) ++ [bq]) := by
    simp
  rw [hshape, stripWs_eq_self isWs_bq isWs_bq]

/-- After the fence-head drops, the remaining text is newline, body,
newline, three backticks; the tail drop and final strip recover the
stripped body. -/
theorem stripWs_dropFenceTail (j : List Char) :
    stripWs (dropFenceTail (nlc :: (j ++ (nlc :: bq :: bq :: bq :: [])))) = stripWs j := by
  have hrev : (nlc :: (j ++ (nlc :: bq :: bq :: bq :: []))).reverse =
      bq :: bq :: bq :: nlc :: (j.reverse ++ [nlc]) := by
    simp
  unfold dropFenceTail
  rw [hrev]
  have hcond : startsWithL ("```".data.reverse) (bq :: bq :: bq :: nlc :: (j.reverse ++ [nlc])) = true := rfl
  rw [hcond, if_pos rfl]
  have hdrop : (bq :: bq :: bq :: nlc :: (j.reverse ++ [nlc])).drop 3 = nlc :: (j.reverse ++ [nlc]) := rfl
  rw [hdrop]
  have hrev2 : (nlc :: (j.reverse ++ [nlc])).reverse = (nlc :: []) ++ j ++ (nlc :: []) := by
    simp
  rw [hrev2]
  exact stripWs_pad (by intro c hc; simp at hc; rw [hc]; rfl)
    (by intro c hc; simp at hc; rw [hc]; rfl)

/-- Cleaning a response wrapped in a `json`-tagged fence yields the
stripped body. -/
theorem cleanList_wrap_json (j : List Char) :
    cleanList ((bq :: bq :: bq :: 'j' :: 's' :: 'o' :: 'n' :: nlc :: []) ++
      (j ++ (nlc :: bq :: bq :: bq :: []))) = stripWs j := by
  unfold cleanList
  have h0 : (bq :: bq :: bq :: 'j' :: 's' :: 'o' :: 'n' :: nlc :: []) ++
      (j ++ (nlc :: bq :: bq :: bq :: [])) =
      bq :: (bq :: bq :: 'j' :: 's' :: 'o' :: 'n' :: nlc :: []) ++
      (j ++ (nlc :: bq :: bq :: bq :: [])) := by simp
  rw [h0, stripWs_fenced]
  have h1 : dropJsonTag (bq :: (bq :: bq :: 'j' :: 's' :: 'o' :: 'n' :: nlc :: []) ++
      (j ++ (nlc :: bq :: bq :: bq :: []))) = nlc :: (j ++ (nlc :: bq :: bq :: bq :: [])) := rfl
  rw [h1]
  have h2 : dropFenceHead (nlc :: (j ++ (nlc :: bq :: bq :: bq :: []))) =
      nlc :: (j ++ (nlc :: bq :: bq :: bq :: [])) := rfl
  rw [h2, stripWs_dropFenceTail]

/-- Cleaning a response wrapped in a bare (untagged) fence yields the
stripped body. -/
theorem cleanList_wrap_bare (j : List Char) :
    cleanList ((bq :: bq :: bq :: nlc :: []) ++
      (j ++ (nlc :: bq :: bq :: bq :: []))) = stripWs j := by
  unfold cleanList
  have h0 : (bq :: bq :: bq :: nlc :: []) ++ (j ++ (nlc :: bq :: bq :: bq :: [])) =
      bq :: (bq :: bq :: nlc :: []) ++ (j ++ (nlc :: bq :: bq :: bq :: [])) := by simp
  rw [h0, stripWs_fenced]
  have h1 : dropJsonTag (bq :: (bq :: bq :: nlc :: []) ++
      (j ++ (nlc :: bq :: bq :: bq :: []))) =
      bq :: (bq :: bq :: nlc :: []) ++ (j ++ (nlc :: bq :: bq :: bq :: [])) := rfl
  rw [h1]
  have h2 : dropFenceHead (bq :: (bq :: bq :: nlc :: []) ++
      (j ++ (nlc :: bq :: bq :: bq :: []))) = nlc :: (j ++ (nlc :: bq :: bq :: bq :: [])) := rfl
  rw [h2, stripWs_dropFenceTail]

/-- String-level statement: cleaning a `json`-fenced valid body equals
the stripped body. -/
theorem cleanResponse_wrap_json (j : String) :
    cleanResponse (wrapFence "json" j) = pyStrip j := by
  unfold cleanResponse wrapFence pyStrip
  have hdata : ("```" ++ "json" ++ "\n" ++ j ++ "\n```").data =
      (bq :: bq :: bq :: 'j' :: 's' :: 'o' :: 'n' :: nlc :: []) ++
      (j.data ++ (nlc :: bq :: bq :: bq :: [])) := by
    rw [data_append, data_append, data_append, data_append]
    rw [show "```".data = [bq, bq, bq] from rfl,
        show "json".data = ['j', 's', 'o', 'n'] from rfl,
        show "\n".data = [nlc] from rfl,
        show "\n```".data = [nlc, bq, bq, bq] from rfl]
    simp
  rw [hdata, cleanList_wrap_json]

/-- String-level statement: cleaning a bare-fenced valid body equals
the stripped body. -/
theorem cleanResponse_wrap_bare (j : String) :
    cleanResponse (wrapFence "" j) = pyStrip j := by
  unfold cleanResponse wrapFence pyStrip
  have hdata : ("```" ++ "" ++ "\n" ++ j ++ "\n```").data =
      (bq :: bq :: bq :: nlc :: []) ++ (j.data ++ (nlc :: bq :: bq :: bq :: [])) := by
    rw [data_append, data_append, data_append, data_append]
    rw [show "```".data = [bq, bq, bq] from rfl,
        show "".data = ([] : List Char) from rfl,
        show "\n".data = [nlc] from rfl,
        show "\n```".data = [nlc, bq, bq, bq] from rfl]
    simp
  rw [hdata, cleanList_wrap_bare]

/-- `json.loads` is unaffected by pre-stripping its input. -/
theorem jsonLoads_pyStrip (s : String) : jsonLoads (pyStrip s) = jsonLoads s := by
  unfold jsonLoads pyStrip
  rw [data_mk, stripWs_idem]

/-! ## Claim theorems -/

/-- Claim C4, counterexample: the fence round-trip fails for a language
tag other than `json` -- wrapping the empty object in a `yaml`-tagged
fence leaves the tag glued to the body after sanitization, and the
result no longer parses, while the unwrapped text parses to the empty
object. -/
theorem claim4_counterexample :
    jsonLoads "\x7b\x7d" = some (JsonValue.obj []) ∧
    jsonLoads (cleanResponse (wrapFence "yaml" "\x7b\x7d")) = none ∧
    cleanResponse (wrapFence "yaml" "\x7b\x7d") = "yaml\n\x7b\x7d" :=
  ⟨rfl, rfl, rfl⟩

/-- Claim C4, amended: for every valid JSON text wrapped in triple
backtick fences whose language tag is `json` or absent, the sanitized
response parses to the same JSON value as the unwrapped text. -/
theorem claim4_fence_roundtrip_amended (tag : String) (j : String) (v : JsonValue)
    (htag : tag = "json" ∨ tag = "") (hv : jsonLoads j = some v) :
    jsonLoads (cleanResponse (wrapFence tag j)) = some v := by
  rcases htag with h | h <;> subst h
  · rw [cleanResponse_wrap_json, jsonLoads_pyStrip, hv]
  · rw [cleanResponse_wrap_bare, jsonLoads_pyStrip, hv]

/-- Claim C4, witness: the amended round-trip at a concrete fenced
response. -/
theorem claim4_witness :
    jsonLoads (cleanResponse (wrapFence "json" " \x7b\"a\": [1, true]\x7d ")) =
      some (JsonValue.obj [("a", JsonValue.arr [JsonValue.num 1, JsonValue.bool true])]) :=
  claim4_fence_roundtrip_amended "json" " \x7b\"a\": [1, true]\x7d " _ (Or.inl rfl) (by rfl)

/-- Claim C2, code-bug evaluation: at the claim's own example -- the
schema requiring a numeric `total` against the model output whose
`total` is the string `"9720"` -- validation reaches a
`raise ValidationError(...)` site, whose construction raises
`TypeError`; the inner handler does not catch a `TypeError`, so the
outcome comes from the top-level handler, carrying the `TypeError`
text and no raw response -- not the parse-failure shape the claim
describes, as the contrast with an actual parse failure (raw response
kept, `Invalid JSON response` classification) shows. -/
theorem claim2_schema_violation_escapes_inner_handler :
    validate_against_schema (JsonValue.obj [("total", JsonValue.str "9720")])
      schemaTotalNumber =
      .error (.validationCtor "Field \x27total\x27 should be number") ∧
    extract_data (exampleEnv "\x7b\"total\": \"9720\"\x7d") "doc" "sys"
        "Doc: \x7bdocument\x7d" schemaTotalNumber =
      { success := false, extracted_data := none,
        error := some (exampleEnv "\x7b\"total\": \"9720\"\x7d").validationCtorMsg,
        raw_response := none, processing_time_seconds := 7 } ∧
    extract_data (exampleEnv "oops") "doc" "sys" "Doc: \x7bdocument\x7d"
        schemaTotalNumber =
      { success := false, extracted_data := none,
        error := some ("Invalid JSON response: " ++ (exampleEnv "oops").decodeErrMsg),
        raw_response := some "oops", processing_time_seconds := 7 } :=
  ⟨rfl, rfl, rfl⟩

/-- Claim C6: a successful extraction returns the outcome carrying the
parsed structured value, the raw response text and the elapsed time; in
particular the schema requiring `vendor` accepts the output
`\x7b"vendor": "Acme"\x7d` with the structured value equal to that object. -/
theorem claim6_success_outcome_contents
    (env : LlmEnv) (doc sys tmpl : String) (schema : JsonValue)
    (up resp : String) (v : JsonValue)
    (hup : assemble_user_prompt tmpl doc = .ok up)
    (hllm : env.llm (sys ++ schema_instruction schema) up = .ok resp)
    (hparse : jsonLoads (cleanResponse resp) = some v)
    (hval : validate_against_schema v schema = .ok ()) :
    extract_data env doc sys tmpl schema =
      { success := true, extracted_data := some v, error := none,
        raw_response := some resp, processing_time_seconds := env.elapsed } ∧
    extract_data (exampleEnv "\x7b\"vendor\": \"Acme\"\x7d") "Hello" "sys"
        "Doc: \x7bdocument\x7d" schemaVendor =
      { success := true,
        extracted_data := some (JsonValue.obj [("vendor", JsonValue.str "Acme")]),
        error := none, raw_response := some "\x7b\"vendor\": \"Acme\"\x7d",
        processing_time_seconds := 7 } := by
  refine ⟨?_, rfl⟩
  simp only [extract_data, hup, hllm, hparse, hval]

/-- Claim C6, witness: the success outcome at the concrete input of the
claim. -/
theorem claim6_witness :
    extract_data (exampleEnv "\x7b\"vendor\": \"Acme\"\x7d") "Hello" "sys"
        "Doc: \x7bdocument\x7d" schemaVendor =
      { success := true,
        extracted_data := some (JsonValue.obj [("vendor", JsonValue.str "Acme")]),
        error := none, raw_response := some "\x7b\"vendor\": \"Acme\"\x7d",
        processing_time_seconds := (exampleEnv "\x7b\"vendor\": \"Acme\"\x7d").elapsed } ∧
    extract_data (exampleEnv "\x7b\"vendor\": \"Acme\"\x7d") "Hello" "sys"
        "Doc: \x7bdocument\x7d" schemaVendor =
      { success := true,
        extracted_data := some (JsonValue.obj [("vendor", JsonValue.str "Acme")]),
        error := none, raw_response := some "\x7b\"vendor\": \"Acme\"\x7d",
        processing_time_seconds := 7 } :=
  claim6_success_outcome_contents
    (exampleEnv "\x7b\"vendor\": \"Acme\"\x7d") "Hello" "sys" "Doc: \x7bdocument\x7d"
    schemaVendor "Doc: Hello" "\x7b\"vendor\": \"Acme\"\x7d"
    (JsonValue.obj [("vendor", JsonValue.str "Acme")]) (by rfl) (by rfl) (by rfl) (by rfl)

/-- Claim C3, counterexample: an extraction can fail solely because of
template formatting -- with a provider that answers valid JSON, the
template consisting of a single opening brace makes `extract_data`
return a failure outcome (the formatting `ValueError` is not caught by
the `KeyError` fallback and reaches the top-level handler), while the
same call with the well-formed template succeeds. -/
theorem claim3_counterexample :
    extract_data (exampleEnv "\x7b\"vendor\": \"Acme\"\x7d") "Hello" "sys" "\x7b" schemaVendor =
      { success := false, extracted_data := none,
        error := some "Single \x27\x7b\x27 encountered in format string",
        raw_response := none, processing_time_seconds := 7 } ∧
    (extract_data (exampleEnv "\x7b\"vendor\": \"Acme\"\x7d") "Hello" "sys"
      "Doc: \x7bdocument\x7d" schemaVendor).success = true :=
  ⟨rfl, rfl⟩

/-- Claim C3, amended: substitution replaces the `document` placeholder;
a `KeyError` from an unknown named placeholder falls back to literal
replacement of the placeholder token; a template whose formatting
raises `ValueError` or `IndexError` (unmatched braces or positional
fields) instead makes the call return a tagged failure outcome through
the top-level handler -- never an unhandled exception. -/
theorem claim3_template_fallback_amended
    (tmpl doc k : String) (hkey : formatDocument tmpl doc = .error (.keyError k))
    (tmpl2 doc2 up2 : String) (hok : formatDocument tmpl2 doc2 = .ok up2)
    (env : LlmEnv) (sys m : String) (schema : JsonValue)
    (tmpl3 doc3 : String) (hbad : assemble_user_prompt tmpl3 doc3 = .error m) :
    assemble_user_prompt tmpl doc = .ok (pyReplace tmpl "\x7bdocument\x7d" doc) ∧
    assemble_user_prompt tmpl2 doc2 = .ok up2 ∧
    extract_data env doc3 sys tmpl3 schema =
      { success := false, extracted_data := none, error := some m,
        raw_response := none, processing_time_seconds := env.elapsed } ∧
    assemble_user_prompt "Doc: \x7bdocument\x7d" "Hello" = .ok "Doc: Hello" := by
  refine ⟨?_, ?_, ?_, rfl⟩
  · unfold assemble_user_prompt
    rw [hkey]
  · unfold assemble_user_prompt
    rw [hok]
  · simp only [extract_data, hbad]

/-- Claim C3, witness: the fallback, the plain substitution and the
failure route at concrete templates. -/
theorem claim3_witness :
    assemble_user_prompt "Doc: \x7bfoo\x7d \x7bdocument\x7d" "Hello" =
      .ok (pyReplace "Doc: \x7bfoo\x7d \x7bdocument\x7d" "\x7bdocument\x7d" "Hello") ∧
    assemble_user_prompt "Doc: \x7bdocument\x7d" "Hello" = .ok "Doc: Hello" ∧
    extract_data (exampleEnv "\x7b\x7d") "Hello" "sys" "\x7b" schemaVendor =
      { success := false, extracted_data := none,
        error := some "Single \x27\x7b\x27 encountered in format string",
        raw_response := none,
        processing_time_seconds := (exampleEnv "\x7b\x7d").elapsed } ∧
    assemble_user_prompt "Doc: \x7bdocument\x7d" "Hello" = .ok "Doc: Hello" :=
  claim3_template_fallback_amended
    "Doc: \x7bfoo\x7d \x7bdocument\x7d" "Hello" "foo" (by rfl)
    "Doc: \x7bdocument\x7d" "Hello" "Doc: Hello" (by rfl)
    (exampleEnv "\x7b\x7d") "sys" "Single \x27\x7b\x27 encountered in format string"
    schemaVendor "\x7b" "Hello" (by rfl)

/-- Claim C10: in schema validation, a boolean passes the type check of
a property declared `number` (Python booleans are instances of the
integer family), so the data `\x7b"total": true\x7d` validates against the
schema declaring `total` a number; and a declared type other than
`string`, `number` or `array` is never checked -- every value passes. -/
theorem claim10_bool_passes_number_check
    (field : String) (b : Bool) (t : String) (v : JsonValue)
    (h1 : t ≠ "string") (h2 : t ≠ "number") (h3 : t ≠ "array") :
    checkFieldType field (some (.str "number")) (.bool b) = .ok () ∧
    checkFieldType field (some (.str t)) v = .ok () ∧
    validate_against_schema (.obj [("total", .bool true)])
      (.obj [("properties", .obj [("total", .obj [("type", .str "number")])])]) = .ok () ∧
    isNumberInst (.bool b) = true := by
  refine ⟨?_, ?_, rfl, ?_⟩
  · cases b <;> rfl
  · simp only [checkFieldType]
    have e1 : (t == "string") = false := by
      simp [h1]
    have e2 : (t == "number") = false := by
      simp [h2]
    have e3 : (t == "array") = false := by
      simp [h3]
    rw [e1, e2, e3]
    rfl
  · cases b <;> rfl

/-- Claim C10, witness: a boolean `total` accepted as a number, and a
declared type `object` never checked. -/
theorem claim10_witness :
    checkFieldType "x" (some (.str "number")) (.bool true) = .ok () ∧
    checkFieldType "x" (some (.str "object")) (.null) = .ok () ∧
    validate_against_schema (.obj [("total", .bool true)])
      (.obj [("properties", .obj [("total", .obj [("type", .str "number")])])]) = .ok () ∧
    isNumberInst (.bool true) = true :=
  claim10_bool_passes_number_check "x" true "object" JsonValue.null
    (by decide) (by decide) (by decide)

/-- Claim C7: `_safe_read_text` attempts the fixed ordered encoding
list and returns the first successful decode with undecodable bytes
dropped -- under `errors='ignore'` the first (UTF-8) attempt always
succeeds and is returned; if every attempt in the remaining list threw,
the loop would fall back to lossy raw-byte UTF-8 decoding; in every
case the routine returns a string without raising. -/
theorem claim7_safe_read_total (bytes : List Nat) (encs : List PyEnc)
    (hall : ∀ e ∈ encs, ∃ m, readWithEncoding e bytes = .error m) :
    safe_read_text bytes = pyDecodeIgnore .utf8 bytes ∧
    readLoop bytes encs = pyDecodeIgnore .utf8 bytes ∧
    readWithEncoding .utf8 bytes = .ok (pyDecodeIgnore .utf8 bytes) := by
  refine ⟨rfl, ?_, rfl⟩
  cases encs with
  | nil => rfl
  | cons e rest =>
    obtain ⟨m, hm⟩ := hall e (List.mem_cons_self e rest)
    exact absurd hm (by simp [readWithEncoding])

/-- Claim C7, witness: reading content that is not valid UTF-8 (a
stray `0xFF` byte) returns the lossy decode without raising. -/
theorem claim7_witness :
    (safe_read_text [255, 65] = pyDecodeIgnore .utf8 [255, 65] ∧
     readLoop [255, 65] [] = pyDecodeIgnore .utf8 [255, 65] ∧
     readWithEncoding .utf8 [255, 65] = .ok (pyDecodeIgnore .utf8 [255, 65])) ∧
    safe_read_text [255, 65] = "A" :=
  ⟨claim7_safe_read_total [255, 65] [] (by simp), by rfl⟩

/-- Claim C9: because every per-encoding read opens the file with
decode errors suppressed, the first (UTF-8) attempt never raises, the
result equals the UTF-8 decode of the bytes with invalid sequences
dropped, and the remaining encodings and the binary fallback are
unreachable (truncating the attempt list after UTF-8 does not change
the result). -/
theorem claim9_utf8_first_attempt_refinement (bytes : List Nat) :
    readWithEncoding .utf8 bytes = .ok (pyDecodeIgnore .utf8 bytes) ∧
    safe_read_text bytes = pyDecodeIgnore .utf8 bytes ∧
    safe_read_text bytes = readLoop bytes [.utf8] :=
  ⟨rfl, rfl, rfl⟩

/-- Claim C8, counterexample: for the unsupported target format `docx`
and a nonexistent input file, `convert_document` fails with the
`NotFound` classification, not `UnsupportedFormat` -- the existence
check precedes the format map. -/
theorem claim8_counterexample :
    (convert_document convEnvMissing "/app/storage" "missing.pdf" "docx").1.error =
      some "Input file not found: missing.pdf" ∧
    (convert_document convEnvMissing "/app/storage" "missing.pdf" "docx").1.error ≠
      some "Unsupported output format: docx" ∧
    "docx" ∉ (["pdf", "txt", "csv", "html"] : List String) := by
  refine ⟨rfl, by decide, by decide⟩

/-- Claim C8, amended: for every target format outside the closed set,
`convert_document` on an existing input returns the failure outcome
classified `Unsupported output format`, and the external converter is
never invoked whether or not the input exists. -/
theorem claim8_unsupported_format_amended
    (env : ConvEnv) (storage input fmt : String)
    (hfmt : fmt ∉ (["pdf", "txt", "csv", "html"] : List String))
    (hex : env.inputExists = true) :
    (convert_document env storage input fmt).1 =
      convFail fmt ("Unsupported output format: " ++ fmt) ∧
    ∀ (env2 : ConvEnv) (storage2 input2 : String),
      (convert_document env2 storage2 input2 fmt).2 = [] := by
  have h' : ¬(fmt = "pdf" ∨ fmt = "txt" ∨ fmt = "csv" ∨ fmt = "html") := by
    simpa using hfmt
  push_neg at h'
  obtain ⟨h1, h2, h3, h4⟩ := h'
  have hmap : formatMap fmt = none := by
    unfold formatMap
    simp [h1, h2, h3, h4]
  constructor
  · unfold convert_document
    rw [hex]
    simp [hmap]
  · intro env2 storage2 input2
    unfold convert_document
    cases hie : env2.inputExists with
    | false => simp
    | true => simp [hmap]

/-- Claim C8, witness: the amended statement at the format `docx` with
an existing input, and the empty effect trace for a missing one. -/
theorem claim8_witness :
    (convert_document convEnvFail "/app/storage" "in.pdf" "docx").1 =
      convFail "docx" ("Unsupported output format: " ++ "docx") ∧
    (∀ (env2 : ConvEnv) (storage2 input2 : String),
      (convert_document env2 storage2 input2 "docx").2 = []) :=
  claim8_unsupported_format_amended convEnvFail "/app/storage" "in.pdf" "docx"
    (by decide) rfl

/-- Claim C1: each public operation returns exactly one tagged outcome
and never propagates an exception -- `convert_document` always yields a
well-formed outcome dictionary (success carries location and size,
failure carries an error message), `extract_data` always yields a
well-formed outcome (success carries the value and the raw text,
failure carries an error message), and `extract_text` converts an
internal fault (here: the MIME sniffer raising) into a degraded
string. -/
theorem claim1_entry_points_return_tagged_outcomes
    (cenv : ConvEnv) (storage input fmt : String)
    (lenv : LlmEnv) (doc sys tmpl : String) (schema : JsonValue)
    (tenv : TextEnv) (path m : String) (hmime : tenv.mime = .error m) :
    convWellFormed (convert_document cenv storage input fmt).1 ∧
    extractWellFormed (extract_data lenv doc sys tmpl schema) ∧
    extract_text tenv path = "" := by
  refine ⟨?_, ?_, ?_⟩
  · unfold convert_document
    split
    · simp [convWellFormed, convFail]
    · split
      · simp [convWellFormed, convFail]
      · split
        · simp [convWellFormed, convFail]
        · split
          · simp [convWellFormed, convFail]
          · split
            · simp [convWellFormed, convFail]
            · split
              · simp [convWellFormed, convFail]
              · simp [convWellFormed]
  · unfold extract_data
    split
    · simp [extractWellFormed]
    · split
      · simp [extractWellFormed]
      · split
        · simp [extractWellFormed]
        · split
          · simp [extractWellFormed]
          · simp [extractWellFormed]
          · simp [extractWellFormed]
  · simp [extract_text, hmime]

/-- Claim C1, witness: the well-formed outcomes and the degraded string
at concrete environments. -/
theorem claim1_witness :
    convWellFormed (convert_document convEnvFail "/storage" "a.pdf" "txt").1 ∧
    extractWellFormed (extract_data (exampleEnv "\x7b\x7d") "d" "s" "t" schemaVendor) ∧
    extract_text { baseTextEnv with mime := .error "magic failed" } "f" = "" :=
  claim1_entry_points_return_tagged_outcomes convEnvFail "/storage" "a.pdf" "txt"
    (exampleEnv "\x7b\x7d") "d" "s" "t" schemaVendor
    { baseTextEnv with mime := .error "magic failed" } "f" "magic failed" rfl

/-- Claim C5: on an internal failure, text extraction returns the empty
string (PDF, word-processor, spreadsheet strategies and the generic
converter fallback), with the single exception of the presentation
path, which returns a descriptive error message embedded as the
extracted text; no other path produces error-shaped text. -/
theorem claim5_degraded_text_outputs
    (envA : TextEnv) (pathA eA : String)
    (hA1 : envA.mime = .ok "application/pdf")
    (hA2 : extract_pdf_text envA = .error eA)
    (envB : TextEnv) (pathB eB : String)
    (hB1 : envB.mime = .ok "application/msword" ∨
      envB.mime = .ok "application/vnd.openxmlformats-officedocument.wordprocessingml.document")
    (hB2 : extract_docx_text envB = .error eB)
    (envC : TextEnv) (pathC eC : String)
    (hC1 : envC.mime = .ok "application/vnd.ms-excel" ∨
      envC.mime = .ok "application/vnd.openxmlformats-officedocument.spreadsheetml.sheet")
    (hC2 : extract_excel_text envC = .error eC)
    (envD : TextEnv) (pathD eD : String) (oD : ConvOutcome) (trD : List ConvEvent)
    (hD1 : envD.mime = .ok "application/vnd.ms-powerpoint" ∨
      envD.mime = .ok "application/vnd.openxmlformats-officedocument.presentationml.presentation")
    (hD2 : convert_document envD.conv envD.storage pathD "txt" = (oD, trD))
    (hD3 : oD.success = false) (hD4 : oD.error = some eD)
    (envE : TextEnv) (pathE ftE : String) (oE : ConvOutcome) (trE : List ConvEvent)
    (hE1 : envE.mime = .ok ftE)
    (hE2 : ftE ≠ "application/pdf")
    (hE3 : ftE ≠ "application/vnd.openxmlformats-officedocument.wordprocessingml.document")
    (hE4 : ftE ≠ "application/msword")
    (hE5 : ftE ≠ "application/vnd.openxmlformats-officedocument.spreadsheetml.sheet")
    (hE6 : ftE ≠ "application/vnd.ms-excel")
    (hE7 : ftE ≠ "application/vnd.openxmlformats-officedocument.presentationml.presentation")
    (hE8 : ftE ≠ "application/vnd.ms-powerpoint")
    (hE9 : startsWithL "text/".data ftE.data = false)
    (hE10 : convert_document envE.conv envE.storage pathE "txt" = (oE, trE))
    (hE11 : oE.success = false) :
    extract_text envA pathA = "" ∧
    extract_text envB pathB = "" ∧
    extract_text envC pathC = "" ∧
    extract_text envD pathD =
      "Error extracting PowerPoint text: PowerPoint conversion failed: " ++ eD ∧
    extract_text envE pathE = "" := by
  refine ⟨?_, ?_, ?_, ?_, ?_⟩
  · simp [extract_text, hA1, hA2]
  · rcases hB1 with h | h <;> simp [extract_text, h, hB2]
  · rcases hC1 with h | h <;> simp [extract_text, h, hC2]
  · rcases hD1 with h | h <;>
      simp [extract_text, h, extract_powerpoint_text, hD2, hD3, hD4]
  · simp [extract_text, hE1, hE2, hE3, hE4, hE5, hE6, hE7, hE8, hE9, hE10, hE11]

/-- Claim C5, witness: the degraded outputs at concrete environments
for every strategy. -/
theorem claim5_witness :
    extract_text { baseTextEnv with mime := .ok "application/pdf", pdfAvailable := false } "a" = "" ∧
    extract_text { baseTextEnv with mime := .ok "application/msword", docxAvailable := false } "b" = "" ∧
    extract_text { baseTextEnv with mime := .ok "application/vnd.ms-excel", pandasAvailable := false } "c" = "" ∧
    extract_text { baseTextEnv with mime := .ok "application/vnd.ms-powerpoint" } "d" =
      "Error extracting PowerPoint text: PowerPoint conversion failed: " ++
        "LibreOffice conversion failed: boom" ∧
    extract_text { baseTextEnv with mime := .ok "application/zip" } "e" = "" :=
  claim5_degraded_text_outputs
    { baseTextEnv with mime := .ok "application/pdf", pdfAvailable := false } "a"
    "PyPDF2/pypdf2 not available for PDF text extraction" rfl rfl
    { baseTextEnv with mime := .ok "application/msword", docxAvailable := false } "b"
    "python-docx not available for DOCX text extraction" (Or.inl rfl) rfl
    { baseTextEnv with mime := .ok "application/vnd.ms-excel", pandasAvailable := false } "c"
    "pandas/openpyxl not available for Excel text extraction" (Or.inl rfl) rfl
    { baseTextEnv with mime := .ok "application/vnd.ms-powerpoint" } "d"
    "LibreOffice conversion failed: boom"
    (convFail "txt" "LibreOffice conversion failed: boom") [ConvEvent.ranConverter]
    (Or.inl rfl) (by rfl) rfl rfl
    { baseTextEnv with mime := .ok "application/zip" } "e" "application/zip"
    (convFail "txt" "LibreOffice conversion failed: boom") [ConvEvent.ranConverter]
    rfl (by decide) (by decide) (by decide) (by decide) (by decide) (by decide)
    (by decide) (by rfl) (by rfl) rfl

end DocSvc
